import Mathlib

/-!
Shallow embedding of the Mini ATM Machine repository
(Express backend `backend/server.js`, RFID reader service
`backend/services/rfidReader.js`, thermal printer service
`printerService.js`, and the React hook `src/hooks/useATMConnection.ts`),
together with proofs settling the specification claims.

Modelling conventions:
* JavaScript monetary values (`balance`, used only through `toFixed(2)`)
  are embedded as integer centavos; `fixed2` renders them the way
  `Number.prototype.toFixed(2)` renders the corresponding decimal.
* Asynchronous hardware calls (`readCard`, serial writes) are embedded by
  passing their outcome (`Except`/`Option`) as an explicit argument to the
  handler that awaits them.
* Timestamps (`new Date().toISOString()`) are embedded as an explicit
  string argument supplied by the environment.
-/

namespace ATM

/-- A transaction entry of the static user store
(`{date, type, amount, balance}` in `backend/data/users.json`;
`amount`/`balance` in centavos). -/
structure Transaction where
  date : String
  type : String
  amount : Int
  balance : Int
deriving DecidableEq, Repr

/-- An account record of the user store
(`{uid, cardNumber, name, accountType, balance, transactions}`). -/
structure AccountRecord where
  uid : String
  cardNumber : String
  name : String
  accountType : String
  balance : Int
  transactions : List Transaction
deriving DecidableEq, Repr

/-- The response of `GET /api/user/:uid`: either the JSON-encoded account
record (HTTP 200) or the 404 error body. -/
inductive UserResponse where
  | found (record : AccountRecord)
  | notFound (error : String)
deriving DecidableEq, Repr

/-- `usersDatabase.users.find(u => u.uid === uid)` in
`server.js` (`app.get('/api/user/:uid')`). -/
def findUser (users : List AccountRecord) (uid : String) : Option AccountRecord :=
  users.find? (fun u => u.uid = uid)

/-- Handler of `GET /api/user/:uid` (`server.js` lines 66-77).  Returns the
HTTP status, the response body, and the (unmodified) store, making the
absence of side effects on the store part of the embedding's statement. -/
def getUserHandler (users : List AccountRecord) (uid : String) :
    (Nat × UserResponse) × List AccountRecord :=
  match findUser users uid with
  | some user => ((200, .found user), users)
  | none => ((404, .notFound "User not found"), users)

/-- The response body of `POST /api/rfid/scan`: either `{uid, timestamp}`
(with `uid` possibly `null`) or an error body. -/
inductive ScanResponse where
  | scanOk (uid : Option String) (timestamp : String)
  | scanErr (error : String)
deriving DecidableEq, Repr

/-- Handler of `POST /api/rfid/scan` (`server.js` lines 80-93).
`reader` is `some ()` when the `RFIDReader` constructor succeeded at
startup; `readOutcome` is the awaited result of the single
`rfidReader.readCard()` call (`Except.error e` when the promise rejects). -/
def rfidScanHandler (reader : Option Unit)
    (readOutcome : Except String (Option String)) (ts : String) :
    Nat × ScanResponse :=
  match reader with
  | none => (503, .scanErr "RFID reader not available")
  | some _ =>
    match readOutcome with
    | .ok uid => (200, .scanOk uid ts)
    | .error e => (500, .scanErr ("Scan failed: " ++ e))

/-- The response body of `POST /api/print`.  `body` is the request body,
kept abstract (the mock branch echoes it verbatim, whatever its shape). -/
inductive PrintResponse (β : Type) where
  | mockEcho (success : Bool) (message : String) (data : β)
  | printed (success : Bool) (message : String)
  | printErr (error : String)
deriving DecidableEq, Repr

/-- Handler of `POST /api/print` (`server.js` lines 96-123).  `printer` is
`some ()` when the `PrinterService` constructor succeeded; `printOutcome`
is the awaited result of `printerService.printReceipt(...)`. -/
def printHandler {β : Type} (printer : Option Unit) (body : β)
    (printOutcome : Except String Unit) : Nat × PrintResponse β :=
  match printer with
  | none => (200, .mockEcho true "Mock print (no hardware available)" body)
  | some _ =>
    match printOutcome with
    | .ok _ => (200, .printed true "Receipt printed")
    | .error e => (500, .printErr ("Print failed: " ++ e))

/-- The mutable service handles of `server.js`: each is `some ()` only when
its constructor did not throw (lines 34-49). -/
structure ServerState where
  rfidReader : Option Unit
  printerService : Option Unit
  users : List AccountRecord
deriving DecidableEq, Repr

/-- Service initialization of `server.js` (lines 37-49): each `new ...()`
inside `try`/`catch`; a throwing constructor leaves the handle undefined
and the process continues. -/
def initServer (rfidOk printerOk : Bool) (users : List AccountRecord) :
    ServerState :=
  { rfidReader := if rfidOk then some () else none
    printerService := if printerOk then some () else none
    users := users }

/-- The body of `GET /api/health` (`server.js` lines 54-63):
`{status, services:{rfid: !!rfidReader, printer: !!printerService},
timestamp}`. -/
structure HealthResponse where
  status : String
  rfid : Bool
  printer : Bool
  timestamp : String
deriving DecidableEq, Repr

/-- Handler of `GET /api/health`. -/
def healthHandler (s : ServerState) (ts : String) : HealthResponse :=
  { status := "ok"
    rfid := s.rfidReader.isSome
    printer := s.printerService.isSome
    timestamp := ts }

/-- `GET /api/user/:uid` routed through the server state (the handler
reads only the user store; `server.js` lines 66-77). -/
def serveGetUser (s : ServerState) (uid : String) :
    (Nat × UserResponse) × List AccountRecord :=
  getUserHandler s.users uid

/-- A message pushed on the `/rfid` WebSocket (`server.js` lines 135-166). -/
inductive WsMsg where
  | connected (rfid : Bool) (printer : Bool)
  | cardDetected (uid : String) (timestamp : String)
deriving DecidableEq, Repr

/-- One tick of the WebSocket polling interval (`server.js` lines 151-165):
await `readCard()`; if it rejects, fail silently; if it resolves to a
truthy uid (`if (uid)`: non-null and non-empty), push one `card_detected`
message. -/
def wsTickMsgs (poll : Except String (Option String)) (ts : String) :
    List WsMsg :=
  match poll with
  | .error _ => []
  | .ok none => []
  | .ok (some uid) => if uid = "" then [] else [.cardDetected uid ts]

/-- The full message sequence a client sees on the `/rfid` socket
(`wss.on('connection')`, `server.js` lines 135-166): the one-time
`connected` handshake, then the messages of each poll tick in order.
Each poll is the awaited `readCard()` outcome paired with that tick's
timestamp. -/
def wsMessages (s : ServerState)
    (polls : List (Except String (Option String) × String)) : List WsMsg :=
  .connected s.rfidReader.isSome s.printerService.isSome ::
    (if s.rfidReader.isSome then
      polls.flatMap (fun p => wsTickMsgs p.1 p.2)
    else [])

/-! ### Thermal printer service (`printerService.js`) -/

/-- ESC byte (`const ESC = 0x1B`). -/
def ESC : Nat := 0x1B

/-- GS byte (`const GS = 0x1D`). -/
def GS : Nat := 0x1D

namespace COMMANDS

/-- Initialize printer. -/
def INIT : List Nat := [ESC, 0x40]

/-- Center align. -/
def ALIGN_CENTER : List Nat := [ESC, 0x61, 0x01]

/-- Left align. -/
def ALIGN_LEFT : List Nat := [ESC, 0x61, 0x00]

/-- Bold on. -/
def BOLD_ON : List Nat := [ESC, 0x45, 0x01]

/-- Bold off. -/
def BOLD_OFF : List Nat := [ESC, 0x45, 0x00]

/-- Normal font size. -/
def FONT_SIZE_NORMAL : List Nat := [GS, 0x21, 0x00]

/-- Double font size. -/
def FONT_SIZE_DOUBLE : List Nat := [GS, 0x21, 0x11]

/-- Line feed. -/
def FEED_LINE : List Nat := [0x0A]

/-- Cut paper. -/
def CUT_PAPER : List Nat := [GS, 0x56, 0x00]

end COMMANDS

/-- `Buffer.from(text, 'utf-8')` as a byte list. -/
def textBytes (text : String) : List Nat :=
  text.toUTF8.toList.map (fun b => b.toNat)

/-- `printText(text, {bold, center, doubleSize})`
(`printerService.js` lines 495-508): the ordered sequence of serial
segments it writes, one per `sendCommand` call. -/
def printText (text : String) (bold center doubleSize : Bool) :
    List (List Nat) :=
  (if center then [COMMANDS.ALIGN_CENTER] else []) ++
  (if bold then [COMMANDS.BOLD_ON] else []) ++
  (if doubleSize then [COMMANDS.FONT_SIZE_DOUBLE] else []) ++
  [textBytes text ++ COMMANDS.FEED_LINE] ++
  (if bold then [COMMANDS.BOLD_OFF] else []) ++
  (if doubleSize then [COMMANDS.FONT_SIZE_NORMAL] else []) ++
  (if center then [COMMANDS.ALIGN_LEFT] else [])

/-- `String.prototype.padStart(2, '0')`. -/
def padStart2 (s : String) : String :=
  if s.length ≥ 2 then s
  else String.mk (List.replicate (2 - s.length) '0') ++ s

/-- `Number.prototype.toFixed(2)` on a monetary value given in centavos. -/
def fixed2 (cents : Int) : String :=
  (if cents < 0 then "-" else "") ++
    toString (cents.natAbs / 100) ++ "." ++
    padStart2 (toString (cents.natAbs % 100))

/-- One left-to-right global scan of `/(\d{4})/g`, replacing each
non-overlapping match of four digits by the match followed by a space
(`'$1 '`). -/
def groupFours (l : List Char) : List Char :=
  match l with
  | c1 :: c2 :: c3 :: c4 :: rest =>
    if c1.isDigit && c2.isDigit && c3.isDigit && c4.isDigit then
      c1 :: c2 :: c3 :: c4 :: ' ' :: groupFours rest
    else
      c1 :: groupFours (c2 :: c3 :: c4 :: rest)
  | other => other
termination_by l.length
decreasing_by
all_goals simp
all_goals omega

/-- `cardNumber.replace(/(\d{4})/g, '$1 ').trim()`
(`printerService.js` line 529). -/
def formatCardNumber (cardNumber : String) : String :=
  (String.mk (groupFours cardNumber.data)).trim

/-- The account snapshot handed to `printReceipt`
(`server.js` lines 107-115). -/
structure ReceiptData where
  name : String
  accountType : String
  balance : Int
  cardNumber : String
  timestamp : String
deriving DecidableEq, Repr

/-- `PrinterService.printReceipt(data)` (`printerService.js` lines
513-558): the ordered sequence of serial segments written, one per
`sendCommand` call.  `locale` embeds the environment-dependent
`new Date(timestamp).toLocaleString()` rendering (fixed for a given
process, so passed in as a parameter). -/
def printReceipt (locale : String → String) (d : ReceiptData) :
    List (List Nat) :=
  [COMMANDS.INIT] ++
  printText "================================" false true false ++
  printText "MINI ATM RECEIPT" true true true ++
  printText "================================" false true false ++
  printText "" false false false ++
  printText ("Name: " ++ d.name) true false false ++
  printText ("Account: " ++ d.accountType) false false false ++
  printText ("Card: " ++ formatCardNumber d.cardNumber) false false false ++
  printText "" false false false ++
  printText "--------------------------------" false true false ++
  printText "AVAILABLE BALANCE" true true false ++
  printText ("PHP " ++ fixed2 d.balance) false true true ++
  printText "--------------------------------" false true false ++
  printText "" false false false ++
  printText ("Date: " ++ locale d.timestamp) false true false ++
  printText "" false false false ++
  printText "Thank you for using Mini ATM" false true false ++
  printText "Raspberry Pi 4B Simulator" false true false ++
  printText "================================" false true false ++
  printText "" false false false ++
  printText "" false false false ++
  printText "" false false false ++
  [COMMANDS.CUT_PAPER]

/-! ### RFID reader service (`rfidReader.js`) -/

/-- `Number.prototype.toString(16)` followed by `.toUpperCase()`
(most significant digit first, no leading zeros; lowercase base-16
rendering then uppercased). -/
def natToHexUpper (n : Nat) : String :=
  String.mk ((Nat.toDigits 16 n).map Char.toUpper)

/-- `byte.toString(16).toUpperCase().padStart(2, '0')`
(`rfidReader.js` line 80). -/
def byteToHex (b : Nat) : String :=
  padStart2 (natToHexUpper b)

/-- `uid.data.map(byte => ...).join('')` (`rfidReader.js` lines 79-81). -/
def uidToHex (data : List Nat) : String :=
  String.join (data.map byteToHex)

/-- The vendor-library interaction inside `readCard`'s `try` block:
either one of `reset()`/`findCard()`/`getUid()` throws (`.error`), or the
calls yield `findCard().status`, `getUid().status` and `getUid().data`. -/
def HwRead : Type := Except String (Bool × Bool × List Nat)

/-- `RFIDReader.readCard()` (`rfidReader.js` lines 54-91): resolves `null`
when no card is present or the UID read reports a failed status, resolves
the hex UID otherwise, and rejects when the vendor library throws. -/
def readCard (hw : HwRead) : Except String (Option String) :=
  match hw with
  | .error e => .error e
  | .ok (findStatus, uidStatus, data) =>
    if findStatus = false then .ok none
    else if uidStatus = false then .ok none
    else .ok (some (uidToHex data))

/-- The closure state of `RFIDReader.startContinuousRead`
(`rfidReader.js` lines 98-132): the `lastUid` variable together with the
pending 5-second `setTimeout` clears, each recorded as
(absolute deadline in ms, the uid captured by the timeout callback). -/
structure ContState where
  lastUid : Option String
  clears : List (Nat × String)
deriving DecidableEq, Repr

/-- Fire every pending `setTimeout` whose deadline has passed by time `t`
(in scheduling order): each callback sets `lastUid` to `null` only if
`lastUid` still equals its captured uid (`rfidReader.js` lines 115-119).
Returns the updated `lastUid` and the still-pending clears. -/
def applyClears (t : Nat) (lastUid : Option String)
    (clears : List (Nat × String)) : Option String × List (Nat × String) :=
  (((clears.filter (fun c => decide (c.1 ≤ t))).foldl
      (fun lu c => if lu = some c.2 then none else lu) lastUid),
   clears.filter (fun c => decide (t < c.1)))

/-- One tick of the `startContinuousRead` polling interval at time `t`
(`rfidReader.js` lines 105-124): due timeouts fire first, then
`readCard()` is awaited; a throwing read is caught and logged; otherwise
the callback fires exactly when the read uid is truthy (non-null,
non-empty) and differs from `lastUid`, in which case `lastUid` is set and
a clear is scheduled 5000 ms later.  Returns the new state and the uid
passed to `onCardDetected`, if any. -/
def contStep (s : ContState) (t : Nat) (read : Except String (Option String)) :
    ContState × Option String :=
  let lu := (applyClears t s.lastUid s.clears).1
  let rem := (applyClears t s.lastUid s.clears).2
  match read with
  | .error _ => ({ lastUid := lu, clears := rem }, none)
  | .ok none => ({ lastUid := lu, clears := rem }, none)
  | .ok (some u) =>
    if u ≠ "" ∧ lu ≠ some u then
      ({ lastUid := some u, clears := rem ++ [(t + 5000, u)] }, some u)
    else
      ({ lastUid := lu, clears := rem }, none)

/-- The initial closure state (`let lastUid = null`, no pending timeout). -/
def contInit : ContState := { lastUid := none, clears := [] }

/-- A run of `startContinuousRead` over polls at increasing times: the
ordered list of uids passed to the caller-supplied callback. -/
def continuousRun (polls : List (Nat × Except String (Option String))) :
    List String :=
  (polls.foldl
    (fun acc p =>
      let r := contStep acc.1 p.1 p.2
      (r.1, acc.2 ++ r.2.toList))
    (contInit, [])).2

/-! ### React hook `useATMConnection` (`src/hooks/useATMConnection.ts`) -/

/-- The hook's state cells (`useState` values; `ws` records whether a
WebSocket handle is held). -/
structure HookState where
  isConnected : Bool
  isScanning : Bool
  currentUser : Option AccountRecord
  error : Option String
  ws : Bool
deriving DecidableEq, Repr

/-- The outcome of the lookup performed inside `fetchUserData`
(lines 109-138): mock-store hit or miss in mock mode; in backend mode a
200 response carrying a record, or any failure (non-ok response, network
or parse error) reaching the `catch`. -/
inductive FetchOutcome where
  | mockFound (u : AccountRecord)
  | mockMissing
  | backendOk (u : AccountRecord)
  | backendFail
deriving DecidableEq, Repr

/-- `fetchUserData(uid)` (lines 109-138) as a state transformer given the
lookup outcome. -/
def fetchUserData (s : HookState) (r : FetchOutcome) : HookState :=
  match r with
  | .mockFound u => { s with currentUser := some u, error := none }
  | .mockMissing =>
      { s with error := some "Card not recognized", currentUser := none }
  | .backendOk u => { s with currentUser := some u, error := none }
  | .backendFail =>
      { s with error := some "Failed to load user data", currentUser := none }

/-- `logout()` (lines 241-245). -/
def hookLogout (s : HookState) : HookState :=
  { s with currentUser := none, error := none }

/-- `disconnect()` (lines 99-106). -/
def hookDisconnect (s : HookState) : HookState :=
  { s with ws := false, isConnected := false, currentUser := none }

/-- `connect()` in mock mode (lines 50-55); the backend branch only
installs socket callbacks and likewise leaves `currentUser` untouched. -/
def hookConnect (s : HookState) : HookState :=
  { s with isConnected := true, error := none }

/-- `scanCard()` (lines 141-174): sets the scanning flag, performs the
scan and lookup (outcome `r`; `.error` covers a failed scan request
reaching the `catch`), and clears the flag in `finally`. -/
def hookScanCard (s : HookState) (r : Except Unit FetchOutcome) : HookState :=
  let s1 := { s with isScanning := true, error := none }
  match r with
  | .ok f => { fetchUserData s1 f with isScanning := false }
  | .error _ =>
      { s1 with error := some "Card scan failed. Please try again.",
                isScanning := false }

/-- `demoLogin()` (lines 177-197): loads the first mock user if any
(`.error` covers a throwing loader reaching the `catch`). -/
def hookDemoLogin (s : HookState) (r : Except Unit (Option FetchOutcome)) :
    HookState :=
  let s1 := { s with isScanning := true, error := none }
  match r with
  | .ok (some f) => { fetchUserData s1 f with isScanning := false }
  | .ok none =>
      { s1 with error := some "No demo users available", isScanning := false }
  | .error _ =>
      { s1 with error := some "Demo login failed", isScanning := false }

/-- `printReceipt()` (lines 200-238): requires an active session; on
failure only sets the error message.  Never changes `currentUser`. -/
def hookPrintReceipt (s : HookState) (ok : Bool) : HookState :=
  if s.currentUser.isNone then { s with error := some "No active session" }
  else if ok then s
  else { s with error := some "Failed to print receipt" }

/-! ### Claims -/

/-- **C1**: For every UID present in the user store, `GET /api/user/:uid`
returns exactly the stored account record for that UID (status 200); for
every string not present, it returns 404 with body
`{error:"User not found"}`; and the lookup has no side effects on the
store.  UIDs are the store's natural key, hence assumed distinct. -/
theorem getUser_resolve_correct (users : List AccountRecord) (uid : String)
    (hnodup : (users.map AccountRecord.uid).Nodup) :
    (∀ r ∈ users, r.uid = uid →
        getUserHandler users uid = ((200, .found r), users)) ∧
    ((∀ r ∈ users, r.uid ≠ uid) →
        getUserHandler users uid = ((404, .notFound "User not found"), users)) ∧
    (getUserHandler users uid).2 = users := by
  refine ⟨?_, ?_, ?_⟩
  · intro r hr hruid
    cases hfind : findUser users uid with
    | none =>
      exact absurd (List.find?_eq_none.mp hfind r hr) (by simp [hruid])
    | some r' =>
      have h1 : r' ∈ users := List.mem_of_find?_eq_some hfind
      have h2 : r'.uid = uid := by simpa using List.find?_some hfind
      have heq : r' = r :=
        List.inj_on_of_nodup_map hnodup h1 hr (by rw [h2, hruid])
      simp [getUserHandler, hfind, heq]
  · intro hall
    have hnone : findUser users uid = none :=
      List.find?_eq_none.mpr (fun x hx => by simp [hall x hx])
    simp [getUserHandler, hnone]
  · unfold getUserHandler
    cases hfind : findUser users uid <;> simp

/-- Witness for C1: a concrete one-record store; the known UID resolves
to the stored record, the unknown UID `ZZZZZZZZ` yields the 404 body,
and the store is returned unchanged. -/
theorem getUser_resolve_correct_witness :
    getUserHandler
        [{ uid := "A1B2C3D4", cardNumber := "1234567890123456",
           name := "Juan Dela Cruz", accountType := "Savings",
           balance := 1542050, transactions := [] }] "A1B2C3D4" =
      ((200, .found
        { uid := "A1B2C3D4", cardNumber := "1234567890123456",
          name := "Juan Dela Cruz", accountType := "Savings",
          balance := 1542050, transactions := [] }),
       [{ uid := "A1B2C3D4", cardNumber := "1234567890123456",
          name := "Juan Dela Cruz", accountType := "Savings",
          balance := 1542050, transactions := [] }]) ∧
    getUserHandler
        [{ uid := "A1B2C3D4", cardNumber := "1234567890123456",
           name := "Juan Dela Cruz", accountType := "Savings",
           balance := 1542050, transactions := [] }] "ZZZZZZZZ" =
      ((404, .notFound "User not found"),
       [{ uid := "A1B2C3D4", cardNumber := "1234567890123456",
          name := "Juan Dela Cruz", accountType := "Savings",
          balance := 1542050, transactions := [] }]) := by
  constructor
  · exact (getUser_resolve_correct _ _ (by decide)).1 _ (by simp) rfl
  · exact (getUser_resolve_correct _ _ (by decide)).2.1 (by decide)

/-- **C5**: `POST /api/rfid/scan` returns 200 with `{uid, timestamp}`
exactly when the reader service exists and the single `readCard()` call
resolves; 503 with the error body if and only if the reader is absent;
and 500 with the surfaced error message if and only if the read rejects
(the handler performs exactly one read, no internal retry). -/
theorem rfidScan_handler_correct (reader : Option Unit)
    (outcome : Except String (Option String)) (ts : String) :
    ((∃ uid, rfidScanHandler reader outcome ts = (200, .scanOk uid ts)) ↔
        reader.isSome = true ∧ ∃ uid, outcome = .ok uid) ∧
    (rfidScanHandler reader outcome ts =
        (503, .scanErr "RFID reader not available") ↔ reader = none) ∧
    ((∃ e, rfidScanHandler reader outcome ts =
        (500, .scanErr ("Scan failed: " ++ e))) ↔
      reader.isSome = true ∧ ∃ e, outcome = .error e) := by
  cases reader <;> cases outcome <;> simp [rfidScanHandler]

/-- **C6**: whenever the printer service is absent, `POST /api/print`
succeeds (status 200, `success:true`) for every request body, with a
message beginning `"Mock print"` and a `data` field echoing the submitted
body unchanged. -/
theorem printHandler_mock_echo (β : Type) (body : β)
    (outcome : Except String Unit) :
    printHandler none body outcome =
      (200, .mockEcho true "Mock print (no hardware available)" body) ∧
    ∃ rest, "Mock print (no hardware available)" = "Mock print" ++ rest :=
  ⟨rfl, ⟨" (no hardware available)", by decide⟩⟩

/-- **C7**: whichever service constructors fail at startup, the server
state is still built and other endpoints serve unchanged
(`GET /api/user/:uid` behaves identically for every combination of
service availability), and `GET /api/health` reports
`{status:"ok", services:{rfid, printer}, timestamp}` where each flag is
true if and only if the corresponding constructor succeeded. -/
theorem health_reports_service_flags (rfidOk printerOk : Bool)
    (users : List AccountRecord) (ts uid : String) :
    healthHandler (initServer rfidOk printerOk users) ts =
      { status := "ok", rfid := rfidOk, printer := printerOk,
        timestamp := ts } ∧
    serveGetUser (initServer rfidOk printerOk users) uid =
      getUserHandler users uid := by
  constructor
  · cases rfidOk <;> cases printerOk <;> rfl
  · rfl

/-- **C8**: `currentUser` holds at most one account record (it is an
`Option`); it is set to a record only by a successful lookup
(`mockFound`/`backendOk`); and logout, disconnect and every failed lookup
leave it `null`.  Every other hook operation (`connect`, `scanCard`,
`demoLogin`, `printReceipt`) either routes through `fetchUserData` or
leaves `currentUser` untouched. -/
theorem currentUser_session_invariant (s : HookState) :
    (∀ r, (fetchUserData s r).currentUser =
        match r with
        | .mockFound u => some u
        | .backendOk u => some u
        | _ => none) ∧
    (hookLogout s).currentUser = none ∧
    (hookDisconnect s).currentUser = none ∧
    (hookConnect s).currentUser = s.currentUser ∧
    (∀ r, (hookScanCard s r).currentUser =
        match r with
        | .ok (.mockFound u) => some u
        | .ok (.backendOk u) => some u
        | .ok _ => none
        | .error _ => s.currentUser) ∧
    (∀ r, (hookDemoLogin s r).currentUser =
        match r with
        | .ok (some (.mockFound u)) => some u
        | .ok (some (.backendOk u)) => some u
        | .ok (some _) => none
        | _ => s.currentUser) ∧
    (∀ ok, (hookPrintReceipt s ok).currentUser = s.currentUser) := by
  refine ⟨?_, rfl, rfl, rfl, ?_, ?_, ?_⟩
  · intro r; cases r <;> rfl
  · intro r
    rcases r with e | f
    · rfl
    · cases f <;> rfl
  · intro r
    rcases r with e | f
    · rfl
    · rcases f with f | _
      · rfl
      · cases ‹FetchOutcome› <;> rfl
  · intro ok
    unfold hookPrintReceipt
    split
    · rfl
    · split <;> rfl

/-- **C10**: with the reader initialized, when no card is present
(`findCard().status` false) or the UID read reports a failed status
(`getUid().status` false), `readCard` resolves to `null` rather than
rejecting, and `POST /api/rfid/scan` then responds 200 with body
`{uid: null, timestamp}`. -/
theorem readCard_no_card_resolves_null (find uidSt : Bool)
    (data : List Nat) (ts : String)
    (h : find = false ∨ uidSt = false) :
    readCard (.ok (find, uidSt, data)) = .ok none ∧
    rfidScanHandler (some ()) (readCard (.ok (find, uidSt, data))) ts =
      (200, .scanOk none ts) := by
  have h1 : readCard (.ok (find, uidSt, data)) = .ok none := by
    rcases h with h | h
    · subst h; simp [readCard]
    · subst h; cases find <;> simp [readCard]
  exact ⟨h1, by rw [h1]; rfl⟩

/-- Witness for C10: no card present on a concrete read; the scan
endpoint answers 200 with a null uid. -/
theorem readCard_no_card_resolves_null_witness :
    readCard (.ok (false, true, [161, 178])) = .ok none ∧
    rfidScanHandler (some ())
        (readCard (.ok (false, true, [161, 178]))) "2025-10-21T10:30:00.000Z" =
      (200, .scanOk none "2025-10-21T10:30:00.000Z") :=
  readCard_no_card_resolves_null false true [161, 178]
    "2025-10-21T10:30:00.000Z" (Or.inl rfl)

/-- `true` exactly on `card_detected` messages. -/
def WsMsg.isDetection : WsMsg → Bool
  | .cardDetected _ _ => true
  | _ => false

/-- `true` when a poll outcome passes the handler's `if (uid)` truthiness
test: the read resolved a non-null, non-empty uid. -/
def isTruthyRead : Except String (Option String) → Bool
  | .ok (some u) => if u = "" then false else true
  | _ => false

/-- Each poll tick contributes only detection messages: exactly one when
the read uid is truthy, none otherwise. -/
theorem wsTickMsgs_detections (p : Except String (Option String))
    (ts : String) :
    (∀ m ∈ wsTickMsgs p ts, m.isDetection = true) ∧
    (wsTickMsgs p ts).countP WsMsg.isDetection =
      (if isTruthyRead p then 1 else 0) := by
  rcases p with e | o
  · refine ⟨?_, rfl⟩
    intro m hm
    cases hm
  · rcases o with _ | u
    · refine ⟨?_, rfl⟩
      intro m hm
      cases hm
    · by_cases hu : u = "" <;>
        simp [wsTickMsgs, isTruthyRead, hu, WsMsg.isDetection]

/-- Detection count over a whole poll sequence. -/
theorem countP_flatMap_wsTickMsgs
    (polls : List (Except String (Option String) × String)) :
    (polls.flatMap (fun p => wsTickMsgs p.1 p.2)).countP WsMsg.isDetection =
      polls.countP (fun p => isTruthyRead p.1) := by
  induction polls with
  | nil => rfl
  | cons p rest ih =>
    rcases p with ⟨o, ts⟩
    rw [List.flatMap_cons, List.countP_append, ih, List.countP_cons,
      (wsTickMsgs_detections o ts).2]
    by_cases h : isTruthyRead o = true
    · simp [h]
      omega
    · simp [h]

/-- **C2** counterexample: with both services live, a run of the
WebSocket polling loop in which the same card UID `A1B2C3D4` is read on
two consecutive one-second ticks (well within any 5-second debounce
window) pushes **two** `card_detected` messages, not exactly one: the
`wss.on('connection')` loop forwards every truthy `readCard()` result
without any dedup. -/
theorem ws_retap_two_detections :
    (wsMessages (initServer true true [])
        [(.ok (some "A1B2C3D4"), "2025-10-21T10:30:00.000Z"),
         (.ok (some "A1B2C3D4"), "2025-10-21T10:30:01.000Z")]).countP
      WsMsg.isDetection = 2 := by decide

/-- **C2** amended: the one-time `{type:"connected", services}` handshake
is the first message and every later message is a detection event, and
the polling loop pushes exactly one `{type:"card_detected", uid,
timestamp}` message per poll that reads a truthy uid — with no
debouncing, so the same UID read twice within the 5-second window
produces two events. -/
theorem ws_messages_handshake_then_per_poll (s : ServerState)
    (polls : List (Except String (Option String) × String)) :
    (wsMessages s polls).head? =
      some (.connected s.rfidReader.isSome s.printerService.isSome) ∧
    (∀ m ∈ (wsMessages s polls).tail, m.isDetection = true) ∧
    (wsMessages s polls).countP WsMsg.isDetection =
      (if s.rfidReader.isSome then
        polls.countP (fun p => isTruthyRead p.1) else 0) := by
  refine ⟨rfl, ?_, ?_⟩
  · intro m hm
    unfold wsMessages at hm
    by_cases hr : s.rfidReader.isSome
    · rw [if_pos hr] at hm
      simp only [List.tail_cons, List.mem_flatMap] at hm
      obtain ⟨p, _, hp⟩ := hm
      exact (wsTickMsgs_detections p.1 p.2).1 m hp
    · rw [if_neg hr] at hm
      cases hm
  · unfold wsMessages
    by_cases hr : s.rfidReader.isSome
    · rw [if_pos hr, if_pos hr, List.countP_cons]
      rw [countP_flatMap_wsTickMsgs]
      simp [WsMsg.isDetection]
    · rw [if_neg hr, if_neg hr, List.countP_cons]
      simp [WsMsg.isDetection]

/-- **C3**: `printReceipt` is deterministic — on a fixed account snapshot
(and fixed process locale rendering) two invocations produce the
identical ordered segment sequence — the sequence begins with the
printer-initialize command `ESC @`, and its final segment is the
paper-cut command `GS V 0`. -/
theorem printReceipt_deterministic_init_cut (locale : String → String)
    (d : ReceiptData) :
    printReceipt locale d = printReceipt locale d ∧
    (printReceipt locale d).head? = some COMMANDS.INIT ∧
    (printReceipt locale d).getLast? = some COMMANDS.CUT_PAPER := by
  refine ⟨rfl, ?_, ?_⟩
  · unfold printReceipt
    simp only [List.head?_append, List.head?_cons]
    rfl
  · unfold printReceipt
    simp only [List.getLast?_append, List.getLast?_singleton]
    rfl

/-- **C4**: in `startContinuousRead`, the callback fires on a poll step
only when that poll reads a truthy UID different from the current
`lastUid` (after due debounce timeouts have fired); and for a re-tap of
the same UID, the second read fires the callback again exactly when it
happens at or after the fixed 5-second window, and is swallowed when it
happens within the window. -/
theorem startContinuousRead_debounce :
    (∀ (s : ContState) (t : Nat) (read : Except String (Option String))
        (u : String),
      (contStep s t read).2 = some u →
        read = .ok (some u) ∧ u ≠ "" ∧
          (applyClears t s.lastUid s.clears).1 ≠ some u) ∧
    (∀ (u : String) (t1 t2 : Nat), u ≠ "" → t1 < t2 →
      continuousRun [(t1, .ok (some u)), (t2, .ok (some u))] =
        if t1 + 5000 ≤ t2 then [u, u] else [u]) := by
  constructor
  · intro s t read u h
    rcases read with e | o
    · simp [contStep] at h
    · rcases o with _ | v
      · simp [contStep] at h
      · by_cases hc : v ≠ "" ∧ (applyClears t s.lastUid s.clears).1 ≠ some v
        · rw [contStep, if_pos hc] at h
          simp only at h
          cases h
          exact ⟨rfl, hc.1, hc.2⟩
        · rw [contStep, if_neg hc] at h
          simp at h
  · intro u t1 t2 hu hlt
    by_cases h : t1 + 5000 ≤ t2
    · simp [continuousRun, contInit, contStep, applyClears, hu, h]
    · simp [continuousRun, contInit, contStep, applyClears, hu, h]

/-- Witness for C4: the UID `A1B2C3D4` re-read one second after its first
detection is debounced (one callback), re-read six seconds after it fires
again (two callbacks); and a concrete emitting step satisfies the
only-when conditions. -/
theorem startContinuousRead_debounce_witness :
    continuousRun [(0, .ok (some "A1B2C3D4")), (1000, .ok (some "A1B2C3D4"))] =
      ["A1B2C3D4"] ∧
    continuousRun [(0, .ok (some "A1B2C3D4")), (6000, .ok (some "A1B2C3D4"))] =
      ["A1B2C3D4", "A1B2C3D4"] ∧
    ((Except.ok (some "A1B2C3D4") : Except String (Option String)) =
        Except.ok (some "A1B2C3D4") ∧
      "A1B2C3D4" ≠ "" ∧
      (applyClears 0 contInit.lastUid contInit.clears).1 ≠ some "A1B2C3D4") := by
  refine ⟨?_, ?_, ?_⟩
  · rw [startContinuousRead_debounce.2 "A1B2C3D4" 0 1000 (by decide) (by decide)]
    decide
  · rw [startContinuousRead_debounce.2 "A1B2C3D4" 0 6000 (by decide) (by decide)]
    decide
  · exact startContinuousRead_debounce.1 contInit 0 (.ok (some "A1B2C3D4"))
      "A1B2C3D4" (by decide)

set_option maxRecDepth 10000 in
/-- Every byte value encodes to exactly two characters, each an uppercase
hexadecimal digit. -/
theorem byteToHex_wellformed : ∀ b < 256, (byteToHex b).length = 2 ∧
    ∀ c ∈ (byteToHex b).data,
      ('0' ≤ c ∧ c ≤ '9') ∨ ('A' ≤ c ∧ c ≤ 'F') := by decide

/-- Folding string append from an arbitrary accumulator factors the
accumulator out front. -/
theorem foldl_strAppend_eq (l : List String) (s : String) :
    l.foldl (fun r t => r ++ t) s = s ++ l.foldl (fun r t => r ++ t) "" := by
  induction l generalizing s with
  | nil => simp
  | cons a l ih =>
    rw [List.foldl_cons, List.foldl_cons, ih (s ++ a), ih ("" ++ a),
      String.append_assoc]
    simp

/-- `String.join` unfolds one element at a time. -/
theorem strJoin_cons (a : String) (l : List String) :
    String.join (a :: l) = a ++ String.join l := by
  show List.foldl (fun r t => r ++ t) "" (a :: l) = _
  rw [List.foldl_cons, foldl_strAppend_eq]
  simp [String.join]

/-- `uidToHex` unfolds one byte at a time. -/
theorem uidToHex_cons (b : Nat) (l : List Nat) :
    uidToHex (b :: l) = byteToHex b ++ uidToHex l := by
  unfold uidToHex
  rw [List.map_cons, strJoin_cons]

/-- **C9**: for UID bytes (values below 256, as read from the card),
the hex string produced by `readCard` has length twice the number of
bytes, and every character is an uppercase hexadecimal digit (each byte
contributing exactly two zero-padded characters). -/
theorem uidToHex_wellformed (data : List Nat) (h : ∀ b ∈ data, b < 256) :
    (uidToHex data).length = 2 * data.length ∧
    ∀ c ∈ (uidToHex data).data,
      ('0' ≤ c ∧ c ≤ '9') ∨ ('A' ≤ c ∧ c ≤ 'F') := by
  induction data with
  | nil =>
    constructor
    · rfl
    · intro c hc
      cases hc
  | cons b rest ih =>
    have hb : b < 256 := h b (by simp)
    have hrest := ih (fun x hx => h x (List.mem_cons_of_mem _ hx))
    have hbyte := byteToHex_wellformed b hb
    rw [uidToHex_cons]
    constructor
    · rw [String.length_append, hbyte.1, hrest.1, List.length_cons]
      ring
    · intro c hc
      rw [String.data_append] at hc
      rcases List.mem_append.mp hc with h1 | h2
      · exact hbyte.2 c h1
      · exact hrest.2 c h2

/-- Witness for C9: the four-byte UID `A1 B2 C3 D4` yields an
eight-character uppercase hex string. -/
theorem uidToHex_wellformed_witness :
    (uidToHex [161, 178, 195, 212]).length = 2 * 4 ∧
    ∀ c ∈ (uidToHex [161, 178, 195, 212]).data,
      ('0' ≤ c ∧ c ≤ '9') ∨ ('A' ≤ c ∧ c ≤ 'F') :=
  uidToHex_wellformed [161, 178, 195, 212] (by decide)

end ATM
